import Mathlib

/-!
Shallow embedding of the job-processing engine of `src/worker.js` together
with the surrounding store/broker model (PostgreSQL `jobs` table, Redis
`job_queue` and `job_dlq` lists, and the `output/` directory used by the
CSV handler).  Pure data is translated directly; the stateful worker loop
becomes explicit state passing over `EngineState`.
-/

namespace AsyncJobs

/-- Status values the system ever writes to the `status` column:
`pending` at creation, `processing` on claim, `completed` on success,
`failed` when the retry budget is exhausted. -/
inductive Status where
  | pending
  | processing
  | completed
  | failed
deriving DecidableEq, Repr

/-- Value stored in the JSONB `result` column.  The worker writes either
`JSON.stringify({filePath: ...})` (CSV branch, worker.js:116) or
`JSON.stringify({messageId: ...})` (email branch, worker.js:144); `none`
models SQL NULL. -/
inductive ResultV where
  | filePath (p : String)
  | messageId (m : String)
deriving DecidableEq, Repr

/-- A payload row for the CSV handler: a JSON object modelled as an
ordered association list (JS object key order is insertion order, which
is what `Object.keys` at worker.js:100 iterates). Values are modelled as
their string renderings, which is all the CSV writer observes. -/
abbrev Row : Type := List (String × String)

/-- The parts of the JSONB `payload` column the worker reads:
`payload.fail` (worker.js:86), `payload.data` (worker.js:94, `none`
models a missing or non-array value), and the email fields
(worker.js:137-139). -/
structure Payload where
  fail : Bool
  data : Option (List Row)
  toAddr : String
  subject : String
  body : String
deriving DecidableEq, Repr

/-- A row of the `jobs` table as the worker observes and mutates it
(README schema: id, type, status, payload, result, error, attempts;
timestamps are outside this model). The `id` is the store key. -/
structure Job where
  type : String
  status : Status
  payload : Payload
  result : Option ResultV
  error : Option String
  attempts : Nat
deriving DecidableEq, Repr

/-- State shared by the engine: the `jobs` table keyed by id, the Redis
`job_queue` and `job_dlq` lists (head of the Lean list = Redis head, so
LPUSH is `cons` and BRPOP takes the last element), and the files existing
under the worker's output directory as (path, content) pairs. -/
structure EngineState where
  store : String → Option Job
  queue : List String
  dlq : List String
  files : List (String × String)

/-- UPDATE of a single row by id: every `pool.query("UPDATE jobs ...")`
in worker.js touches exactly the row `WHERE id = $n`. -/
def updStore (st : String → Option Job) (id : String) (f : Job → Job) :
    String → Option Job :=
  fun k => if k = id then (st id).map f else st k

/-- MAX_RETRIES constant, worker.js:7. -/
def MAX_RETRIES : Nat := 2

/-- Claim UPDATE, worker.js:71-74: unconditionally set `status` to
`processing` for the given id (no condition on the current status). -/
def claimUpdate (s : EngineState) (id : String) : EngineState :=
  { s with store := updStore s.store id fun j => { j with status := Status.processing } }

/-- Success finalisation UPDATE, worker.js:114-117 and 142-145: set
`status = completed` and `result` for the given id, unconditionally. -/
def finalizeSuccess (st : String → Option Job) (id : String) (r : ResultV) :
    String → Option Job :=
  updStore st id fun j => { j with status := Status.completed, result := some r }

/-- Retry finalisation UPDATE, worker.js:168-171: set `attempts` and
`status = pending` for the given id, unconditionally. -/
def finalizeRetry (st : String → Option Job) (id : String) (a : Nat) :
    String → Option Job :=
  updStore st id fun j => { j with attempts := a, status := Status.pending }

/-- Terminal finalisation UPDATE, worker.js:177-180: set `attempts` and
`status = failed` for the given id, unconditionally. -/
def finalizeTerminal (st : String → Option Job) (id : String) (a : Nat) :
    String → Option Job :=
  updStore st id fun j => { j with attempts := a, status := Status.failed }

/-- Value of `row[h]` as rendered by `Array.prototype.join`
(worker.js:104): a missing key yields `undefined`, which `join` renders
as the empty string. -/
def rowLookup (row : Row) (h : String) : String :=
  (List.lookup h row).getD ""

/-- CSV text built at worker.js:100-105: header line from the first
row's keys, then one line per row. -/
def csvContent (rows : List Row) : String :=
  match rows with
  | [] => ""
  | r0 :: _ =>
    let headers := r0.map Prod.fst
    rows.foldl
      (fun acc row => acc ++ String.intercalate "," (headers.map (rowLookup row)) ++ "\n")
      (String.intercalate "," headers ++ "\n")

/-- Outcome of `transporter.sendMail` (worker.js:135-140): external SMTP
I/O, modelled as an oracle from the payload to either a thrown error
message or the returned `messageId`. -/
def Mailer : Type := Payload → Except String String

/-- Body of the `try` block, worker.js:82-152, run after the claim
update with `job` the row as read at worker.js:51-61 (before the claim
update). Returns the thrown error message, or the state after the block
ran to completion. Note that a job whose `type` matches no branch falls
through with no store update at all. -/
def execTry (m : Mailer) (s : EngineState) (job : Job) (jobId : String) :
    Except String EngineState :=
  if job.payload.fail then
    Except.error "Intentional failure for retry test"
  else if job.type = "CSV_EXPORT" ∨ job.type = "csv-generation" then
    match job.payload.data with
    | none => Except.error "CSV_EXPORT payload must contain non-empty data array"
    | some [] => Except.error "CSV_EXPORT payload must contain non-empty data array"
    | some rows =>
      let fileName := jobId ++ ".csv"
      let filePath := "/usr/src/app/output/" ++ fileName
      let files :=
        if s.files.any (fun p => p.1 = filePath) then s.files
        else (filePath, csvContent rows) :: s.files
      Except.ok
        { s with
          files := files
          store := finalizeSuccess s.store jobId (ResultV.filePath ("output/" ++ fileName)) }
  else if job.type = "EMAIL_SEND" then
    match m job.payload with
    | Except.error e => Except.error e
    | Except.ok msgId =>
      Except.ok { s with store := finalizeSuccess s.store jobId (ResultV.messageId msgId) }
  else
    Except.ok s

/-- One delivery of a job id popped from the work queue: the loop body of
worker.js:49-190 after `brpop` returned. Missing row: skip (worker.js:56-59).
Status `completed`: skip (idempotency check, worker.js:66-69). Otherwise:
claim update, then the `try` block; on a thrown error, the catch block
(worker.js:154-189) computes `attempts = job.attempts + 1` from the row
read before the claim, and either requeues (retry) or dead-letters
(terminal). -/
def processDelivery (m : Mailer) (s : EngineState) (jobId : String) : EngineState :=
  match s.store jobId with
  | none => s
  | some job =>
    if job.status = Status.completed then s
    else
      let s1 := claimUpdate s jobId
      match execTry m s1 job jobId with
      | Except.ok s2 => s2
      | Except.error _ =>
        let attempts := job.attempts + 1
        if attempts < MAX_RETRIES then
          { s1 with
            store := finalizeRetry s1.store jobId attempts
            queue := jobId :: s1.queue }
        else
          { s1 with
            store := finalizeTerminal s1.store jobId attempts
            dlq := jobId :: s1.dlq }

/-- Redis BRPOP on a list whose head is the LPUSH end: removes and
returns the element at the tail, or nothing when the list is empty. -/
def brpop (q : List String) : Option (String × List String) :=
  match q.getLast? with
  | none => none
  | some x => some (x, q.dropLast)

/-- One full worker-loop iteration when the queue is non-empty: BRPOP
(worker.js:46) followed by the delivery processing; `none` when the
queue is empty (the real call would block). -/
def stepOnce (m : Mailer) (s : EngineState) : Option EngineState :=
  match brpop s.queue with
  | none => none
  | some (id, q) => some (processDelivery m { s with queue := q } id)

/-- Control position of the worker loop: at the `while (!shuttingDown)`
test (worker.js:44), blocked inside `brpop` (worker.js:46), or past the
loop (worker.js:199-200). -/
inductive LoopPhase where
  | atHead
  | waiting
  | finished
deriving DecidableEq, Repr

/-- Worker-loop state: control position, the `shuttingDown` flag
(worker.js:26, set asynchronously by the signal handlers), and the
shared engine state. -/
structure LoopState where
  phase : LoopPhase
  shuttingDown : Bool
  engine : EngineState

/-- Small-step semantics of the worker loop, worker.js:43-201. At the
loop head the flag is tested; if it is set the loop exits, otherwise the
loop enters `brpop`. The `brpop` call was issued with timeout 0
(worker.js:46), so while the queue is empty the loop stays blocked there
whatever the flag says; when an item is available it is popped and
processed, returning to the loop head. -/
def loopStep (m : Mailer) (w : LoopState) : LoopState :=
  match w.phase with
  | LoopPhase.finished => w
  | LoopPhase.atHead =>
    if w.shuttingDown then { w with phase := LoopPhase.finished }
    else { w with phase := LoopPhase.waiting }
  | LoopPhase.waiting =>
    match brpop w.engine.queue with
    | none => w
    | some (id, q) =>
      { w with
        phase := LoopPhase.atHead
        engine := processDelivery m { w.engine with queue := q } id }

/-- Row inserted by `POST /jobs` (routes/jobs.js:38-42): the INSERT
supplies only id, `type`, `status = "pending"` and the payload, so the
remaining columns take the table defaults of the README schema —
`attempts` 0, `result` and `error` NULL. -/
def mkPendingJob (ty : String) (p : Payload) : Job :=
  { type := ty
    status := Status.pending
    payload := p
    result := none
    error := none
    attempts := 0 }

/-- States reachable through the engine's operations: the empty store;
job creation via `POST /jobs` (routes/jobs.js:28-54: type must be
non-empty per the `if (!type)` guard, the id is a fresh uuid inserted as
primary key, then `redis.lpush("job_queue", jobId)`); and processing of
a delivered id (any id: the broker is at-least-once, so duplicate
deliveries are included). -/
inductive Reachable : EngineState → Prop where
  | init : Reachable { store := fun _ => none, queue := [], dlq := [], files := [] }
  | create (s : EngineState) (id ty : String) (p : Payload)
      (hty : ty ≠ "") (hs : Reachable s) (hfresh : s.store id = none) :
      Reachable
        { s with
          store := fun k => if k = id then some (mkPendingJob ty p) else s.store k
          queue := id :: s.queue }
  | deliver (s : EngineState) (m : Mailer) (id : String) (hs : Reachable s) :
      Reachable (processDelivery m s id)

/-- Store holding a single job, used by the concrete scenarios below. -/
def singleStore (id : String) (j : Job) : String → Option Job :=
  fun k => if k = id then some j else none

/-- Mailer oracle whose sends always succeed with a fixed message id. -/
def mailerOk : Mailer := fun _ => Except.ok "msg-1"

/-- Payload of a typical CSV job (scenario a of the spec). -/
def csvPayload : Payload :=
  { fail := false
    data := some [[("name", "Alice"), ("score", "95")]]
    toAddr := ""
    subject := ""
    body := "" }

/-- Payload with `fail = true` (scenario b of the spec). -/
def failPayload : Payload :=
  { fail := true, data := none, toAddr := "", subject := "", body := "" }

/-- Payload with neither `fail` nor usable data, for unknown-type jobs. -/
def plainPayload : Payload :=
  { fail := false, data := none, toAddr := "", subject := "", body := "" }

/-- True exactly when the `try` block ran to completion instead of
throwing. -/
def isOkE (e : Except String EngineState) : Bool :=
  match e with
  | Except.ok _ => true
  | Except.error _ => false

/-- A job whose record sits at status `failed`, with a well-formed CSV
payload, so that a re-claim of it would run the CSV handler. -/
def jobFailedCsv : Job :=
  { type := "csv-generation"
    status := Status.failed
    payload := csvPayload
    result := none
    error := none
    attempts := 2 }

/-- Engine state holding only `jobFailedCsv` under id `j1`. -/
def sFailedCsv : EngineState :=
  { store := singleStore "j1" jobFailedCsv, queue := [], dlq := [], files := [] }

/-- A pending CSV job about to succeed on its first attempt. -/
def jobCsvPending : Job := mkPendingJob "csv-generation" csvPayload

/-- Engine state holding only `jobCsvPending` under id `j2`. -/
def sCsvPending : EngineState :=
  { store := singleStore "j2" jobCsvPending, queue := [], dlq := [], files := [] }

/-- A completed job with its result set, as left by a successful CSV run. -/
def jobDone : Job :=
  { type := "csv-generation"
    status := Status.completed
    payload := csvPayload
    result := some (ResultV.filePath "output/j3.csv")
    error := none
    attempts := 0 }

/-- Engine state holding only the completed job `j3`. -/
def sDone : EngineState :=
  { store := singleStore "j3" jobDone, queue := [], dlq := [], files := [] }

/-- A failing pending job, with an empty `error` column, ready for its
first attempt. -/
def jobFail0 : Job := mkPendingJob "EMAIL_SEND" failPayload

/-- Engine state holding only `jobFail0` under id `j4`. -/
def sFail0 : EngineState :=
  { store := singleStore "j4" jobFail0, queue := [], dlq := [], files := [] }

/-- Engine state where `jobFail0` sits in the store and its id is the
only entry of the work queue, as right after creation. -/
def sFailQueue : EngineState :=
  { store := singleStore "j4" jobFail0, queue := ["j4"], dlq := [], files := [] }

/-- A pending job whose `type` matches no handler branch of the worker. -/
def jobUnknown : Job := mkPendingJob "PDF_EXPORT" plainPayload

/-- Engine state holding only the unknown-type job `j5`. -/
def sUnknown : EngineState :=
  { store := singleStore "j5" jobUnknown, queue := [], dlq := [], files := [] }

/-- A job already dead-lettered: status `failed`, attempts exhausted,
with a payload that fails every attempt. -/
def jobFailedTerm : Job :=
  { type := "EMAIL_SEND"
    status := Status.failed
    payload := failPayload
    result := none
    error := none
    attempts := 2 }

/-- Engine state holding the terminal job `j6`, whose id is already on
the dead-letter queue. -/
def sFailedTerm : EngineState :=
  { store := singleStore "j6" jobFailedTerm, queue := [], dlq := ["j6"], files := [] }

/-- A pending CSV job whose output file already exists. -/
def jobCsv7 : Job := mkPendingJob "csv-generation" csvPayload

/-- Engine state holding `jobCsv7` under id `j7`, with the job's output
file already present on disk. -/
def sCsvFileExists : EngineState :=
  { store := singleStore "j7" jobCsv7
    queue := []
    dlq := []
    files := [("/usr/src/app/output/j7.csv", "stale")] }

/-- Worker loop at the `while` test with shutdown already signalled. -/
def wAtHead : LoopState :=
  { phase := LoopPhase.atHead
    shuttingDown := true
    engine := { store := fun _ => none, queue := [], dlq := [], files := [] } }

/-- Worker loop blocked inside `brpop` on an empty queue, with shutdown
already signalled. -/
def wBlocked : LoopState :=
  { phase := LoopPhase.waiting
    shuttingDown := true
    engine := { store := fun _ => none, queue := [], dlq := [], files := [] } }

theorem updStore_self (st : String → Option Job) (id : String) (f : Job → Job) :
    updStore st id f id = (st id).map f := by
  simp [updStore]

theorem updStore_ne (st : String → Option Job) (id k : String) (f : Job → Job)
    (h : k ≠ id) : updStore st id f k = st k := by
  simp [updStore, h]

theorem updStore_updStore (st : String → Option Job) (id : String) (f g : Job → Job) :
    updStore (updStore st id f) id g = updStore st id fun j => g (f j) := by
  funext k
  by_cases h : k = id <;>
    simp [updStore, h, Option.map_map, Function.comp_def]

/-- C1, counterexample: delivering the id of a job whose status is
`failed` (hence not `pending`) does not fail the claim: the claim update
moves the record to `processing`, and the handler then executes, here
completing the job. The claim step silently succeeds on a non-pending
job. -/
theorem claim_nonpending_silent_success :
    sFailedCsv.store "j1" = some jobFailedCsv ∧
    jobFailedCsv.status ≠ Status.pending ∧
    (claimUpdate sFailedCsv "j1").store "j1" =
      some { jobFailedCsv with status := Status.processing } ∧
    (processDelivery mailerOk sFailedCsv "j1").store "j1" =
      some { jobFailedCsv with
             status := Status.completed
             result := some (ResultV.filePath "output/j1.csv") } := by
  refine ⟨rfl, by decide, by decide, by decide⟩

/-- C1, amended: the claim step is not a conditional transition from
`pending`; it skips only jobs whose current status is `completed` (or
whose row is missing). Any job in any other status, `failed` and
`processing` included, is unconditionally moved to `processing` by the
claim update, with no atomic compare-and-set. -/
theorem claim_step_skips_only_completed (m : Mailer) (s : EngineState) (id : String)
    (job : Job) (h : s.store id = some job) :
    (job.status = Status.completed → processDelivery m s id = s) ∧
    (job.status ≠ Status.completed →
      (claimUpdate s id).store id = some { job with status := Status.processing }) := by
  constructor
  · intro hc
    simp [processDelivery, h, hc]
  · intro _
    simp [claimUpdate, updStore, h]

/-- Witness for `claim_step_skips_only_completed` at the concrete
`failed` job `j1`. -/
theorem claim_step_skips_only_completed_witness :
    (claimUpdate sFailedCsv "j1").store "j1" =
      some { jobFailedCsv with status := Status.processing } :=
  (claim_step_skips_only_completed mailerOk sFailedCsv "j1" jobFailedCsv rfl).2
    (by decide)

/-- C3, counterexample: re-delivering the id of a job whose status is
`failed` is not a no-op. The worker re-claims it, re-runs the handler,
bumps `attempts` from 2 to 3, and pushes the id onto the dead-letter
queue a second time. -/
theorem failed_job_redelivery_not_noop :
    sFailedTerm.store "j6" = some jobFailedTerm ∧
    jobFailedTerm.status = Status.failed ∧
    (processDelivery mailerOk sFailedTerm "j6").store "j6" =
      some { jobFailedTerm with attempts := 3 } ∧
    (processDelivery mailerOk sFailedTerm "j6").dlq = ["j6", "j6"] := by
  refine ⟨rfl, rfl, by decide, by decide⟩

/-- C3, amended: only re-delivery of a job whose status is `completed`
is a no-op (store, queues and files all unchanged, no execution);
re-delivery of a `failed` job is re-claimed and re-executed. -/
theorem completed_job_redelivery_noop (m : Mailer) (s : EngineState) (id : String)
    (job : Job) (hj : s.store id = some job) (hc : job.status = Status.completed) :
    processDelivery m s id = s := by
  simp [processDelivery, hj, hc]

/-- Witness for `completed_job_redelivery_noop` at the concrete
completed job `j3`. -/
theorem completed_job_redelivery_noop_witness :
    processDelivery mailerOk sDone "j3" = sDone :=
  completed_job_redelivery_noop mailerOk sDone "j3" jobDone rfl rfl

/-- C4: processing a job whose type matches no handler does not finalize
it as a Terminal failure. The try block falls through without touching
the row, so the job is left stuck at status `processing` with no result,
unchanged attempts, and nothing on the dead-letter queue. -/
theorem unknown_type_left_processing :
    (processDelivery mailerOk sUnknown "j5").store "j5" =
      some { jobUnknown with status := Status.processing } ∧
    (processDelivery mailerOk sUnknown "j5").dlq = [] ∧
    (processDelivery mailerOk sUnknown "j5").queue = [] ∧
    ((processDelivery mailerOk sUnknown "j5").store "j5").map Job.status ≠
      some Status.failed := by
  refine ⟨by decide, by decide, by decide, by decide⟩

/-- Case analysis of a `try` block that ran to completion: either it was
the unknown-type fall-through (store untouched) or a success
finalisation was written; the broker queues are never touched inside
the block. -/
theorem execTry_ok_cases (m : Mailer) (s : EngineState) (job : Job) (jobId : String)
    (s2 : EngineState) (h : execTry m s job jobId = Except.ok s2) :
    (s2.store = s.store ∨ ∃ r, s2.store = finalizeSuccess s.store jobId r) ∧
    s2.queue = s.queue ∧ s2.dlq = s.dlq := by
  by_cases hf : job.payload.fail
  · simp [execTry, hf] at h
  · by_cases ht : job.type = "CSV_EXPORT" ∨ job.type = "csv-generation"
    · rcases hd : job.payload.data with _ | rows
      · simp [execTry, hf, ht, hd] at h
      · cases rows with
        | nil => simp [execTry, hf, ht, hd] at h
        | cons r rs =>
          simp [execTry, hf, ht, hd] at h
          subst h
          exact ⟨Or.inr ⟨_, rfl⟩, rfl, rfl⟩
    · by_cases he : job.type = "EMAIL_SEND"
      · rcases hm : m job.payload with e | msg
        · simp [execTry, hf, ht, he, hm] at h
        · simp [execTry, hf, ht, he, hm] at h
          subst h
          exact ⟨Or.inr ⟨_, rfl⟩, rfl, rfl⟩
      · simp [execTry, hf, ht, he] at h
        subst h
        exact ⟨Or.inl rfl, rfl, rfl⟩

/-- Field projections through a single-row update that preserves the
projected field. -/
theorem updStore_map_proj {α : Type} (st : String → Option Job) (id k : String)
    (f : Job → Job) (proj : Job → α) (hpres : ∀ j, proj (f j) = proj j) :
    ((updStore st id f) k).map proj = (st k).map proj := by
  by_cases h : k = id <;>
    simp [updStore, h, Option.map_map, Function.comp_def, hpres]

/-- Shape of the store after one delivery: either the delivery was
skipped (missing row or `completed` status) and the whole state is
unchanged, or the row was claimed and the final store is the claim
update followed by nothing (unknown-type fall-through), a success
finalisation, a retry finalisation, or a terminal finalisation. -/
theorem processDelivery_cases (m : Mailer) (s : EngineState) (id : String) :
    processDelivery m s id = s ∨
    (∃ job, s.store id = some job ∧ job.status ≠ Status.completed ∧
      ((processDelivery m s id).store = (claimUpdate s id).store ∨
       (∃ r, (processDelivery m s id).store =
          finalizeSuccess (claimUpdate s id).store id r) ∨
       (processDelivery m s id).store =
          finalizeRetry (claimUpdate s id).store id (job.attempts + 1) ∨
       (processDelivery m s id).store =
          finalizeTerminal (claimUpdate s id).store id (job.attempts + 1))) := by
  rcases hj : s.store id with _ | job
  · left
    simp [processDelivery, hj]
  · by_cases hc : job.status = Status.completed
    · left
      simp [processDelivery, hj, hc]
    · right
      refine ⟨job, rfl, hc, ?_⟩
      rcases he : execTry m (claimUpdate s id) job id with emsg | s2
      · by_cases hn : job.attempts + 1 < MAX_RETRIES
        · right; right; left
          simp [processDelivery, hj, hc, he, hn]
        · right; right; right
          simp [processDelivery, hj, hc, he, hn]
      · have hpd : processDelivery m s id = s2 := by
          simp [processDelivery, hj, hc, he]
        rcases execTry_ok_cases m (claimUpdate s id) job id s2 he with ⟨hst, _, _⟩
        rcases hst with h1 | ⟨r, hr⟩
        · left
          rw [hpd, h1]
        · right; left
          exact ⟨r, by rw [hpd, hr]⟩

/-- C9, counterexample: a handler attempt fails (the thrown message is
"Intentional failure for retry test"), the job is finalised for retry,
yet its `error` column is still NULL afterwards: the worker only logs
the message and never writes it to the store. -/
theorem error_field_not_set_on_failure :
    jobFail0.payload.fail = true ∧
    jobFail0.error = none ∧
    (processDelivery mailerOk sFail0 "j4").store "j4" =
      some { jobFail0 with status := Status.pending, attempts := 1 } ∧
    ((processDelivery mailerOk sFail0 "j4").store "j4").map Job.error = some none := by
  refine ⟨rfl, rfl, by decide, by decide⟩

/-- C9, amended: no path of the worker ever writes the `error` field:
after any delivery every row's `error` is exactly what it was before
(NULL stays NULL even across failed attempts; failure messages only
reach the structured log). -/
theorem error_field_never_written (m : Mailer) (s : EngineState) (id k : String) :
    ((processDelivery m s id).store k).map Job.error = (s.store k).map Job.error := by
  rcases processDelivery_cases m s id with h | ⟨job, _, _, hst⟩
  · rw [h]
  · rcases hst with h1 | ⟨r, hr⟩ | h2 | h3
    · rw [h1]
      by_cases hk : k = id <;>
        simp [claimUpdate, updStore, hk, Option.map_map, Function.comp_def]
    · rw [hr]
      by_cases hk : k = id <;>
        simp [finalizeSuccess, claimUpdate, updStore, hk, Option.map_map,
          Function.comp_def]
    · rw [h2]
      by_cases hk : k = id <;>
        simp [finalizeRetry, claimUpdate, updStore, hk, Option.map_map,
          Function.comp_def]
    · rw [h3]
      by_cases hk : k = id <;>
        simp [finalizeTerminal, claimUpdate, updStore, hk, Option.map_map,
          Function.comp_def]

/-- C5, counterexample: a successful attempt does not increment
`attempts`. The pending CSV job `j2` is claimed, its handler runs and
finishes (status becomes `completed`), yet `attempts` is still 0 after
this finished execution attempt. -/
theorem success_does_not_increment_attempts :
    sCsvPending.store "j2" = some jobCsvPending ∧
    jobCsvPending.attempts = 0 ∧
    (processDelivery mailerOk sCsvPending "j2").store "j2" =
      some { jobCsvPending with
             status := Status.completed
             result := some (ResultV.filePath "output/j2.csv") } ∧
    ((processDelivery mailerOk sCsvPending "j2").store "j2").map Job.attempts =
      some 0 := by
  refine ⟨rfl, rfl, by decide, by decide⟩

/-- C5, amended: `attempts` is unchanged by the claim update alone,
never decreases across a delivery, and at the end of a finished attempt
it is incremented by exactly 1 when the attempt failed (the `try` block
threw) but left unchanged when the attempt succeeded. -/
theorem attempts_discipline (m : Mailer) (s : EngineState) (id k : String) :
    ((claimUpdate s id).store k).map Job.attempts = (s.store k).map Job.attempts ∧
    (∀ j j', s.store k = some j → (processDelivery m s id).store k = some j' →
      j.attempts ≤ j'.attempts) ∧
    (∀ job, s.store id = some job → job.status ≠ Status.completed →
      ((processDelivery m s id).store id).map Job.attempts =
        some (if isOkE (execTry m (claimUpdate s id) job id) then job.attempts
              else job.attempts + 1)) := by
  refine ⟨?_, ?_, ?_⟩
  · by_cases hk : k = id <;>
      simp [claimUpdate, updStore, hk, Option.map_map, Function.comp_def]
  · intro j j' h1 h2
    rcases processDelivery_cases m s id with hc | ⟨job, hj, _, hst⟩
    · rw [hc, h1] at h2
      cases h2
      exact le_refl _
    · by_cases hk : k = id
      · subst hk
        have hjj : job = j := by
          rw [h1] at hj
          exact (Option.some.inj hj).symm
        subst hjj
        rcases hst with hshape | ⟨r, hshape⟩ | hshape | hshape <;>
          rw [hshape] at h2 <;>
          simp [finalizeSuccess, finalizeRetry, finalizeTerminal, claimUpdate,
            updStore, h1, Option.map_map, Function.comp_def] at h2 <;>
          subst h2 <;> simp
      · rcases hst with hshape | ⟨r, hshape⟩ | hshape | hshape <;>
          rw [hshape] at h2 <;>
          simp [finalizeSuccess, finalizeRetry, finalizeTerminal, claimUpdate,
            updStore, hk] at h2 <;>
          rw [h1] at h2 <;> cases h2 <;> exact le_refl _
  · intro job hj hnc
    rcases he : execTry m (claimUpdate s id) job id with emsg | s2
    · by_cases hn : job.attempts + 1 < MAX_RETRIES
      · have hpd : (processDelivery m s id).store =
            finalizeRetry (claimUpdate s id).store id (job.attempts + 1) := by
          simp [processDelivery, hj, hnc, he, hn]
        rw [hpd]
        simp [isOkE, finalizeRetry, claimUpdate, updStore, hj, Option.map_map,
          Function.comp_def]
      · have hpd : (processDelivery m s id).store =
            finalizeTerminal (claimUpdate s id).store id (job.attempts + 1) := by
          simp [processDelivery, hj, hnc, he, hn]
        rw [hpd]
        simp [isOkE, finalizeTerminal, claimUpdate, updStore, hj, Option.map_map,
          Function.comp_def]
    · have hpd : (processDelivery m s id).store = s2.store := by
        simp [processDelivery, hj, hnc, he]
      rcases execTry_ok_cases m (claimUpdate s id) job id s2 he with ⟨hst, _, _⟩
      rcases hst with h1 | ⟨r, hr⟩
      · rw [hpd, h1]
        simp [isOkE, claimUpdate, updStore, hj, Option.map_map, Function.comp_def]
      · rw [hpd, hr]
        simp [isOkE, finalizeSuccess, claimUpdate, updStore, hj, Option.map_map,
          Function.comp_def]

/-- Witness for `attempts_discipline` at the failing job `j4`: its first
failed attempt moves `attempts` from 0 to 1. -/
theorem attempts_discipline_witness :
    ((processDelivery mailerOk sFail0 "j4").store "j4").map Job.attempts =
      some (if isOkE (execTry mailerOk (claimUpdate sFail0 "j4") jobFail0 "j4")
            then jobFail0.attempts else jobFail0.attempts + 1) :=
  (attempts_discipline mailerOk sFail0 "j4" "j4").2.2 jobFail0 rfl (by decide)

/-- C7, counterexample: the terminal finalisation applied to a job whose
current status is `completed` (not `processing`) is neither a no-op nor
an error: it overwrites the record, flipping it to `failed` and
rewriting `attempts`, while leaving the stale `result` in place. -/
theorem finalize_overwrites_completed :
    sDone.store "j3" = some jobDone ∧
    jobDone.status ≠ Status.processing ∧
    finalizeTerminal sDone.store "j3" 1 "j3" =
      some { jobDone with status := Status.failed, attempts := 1 } ∧
    finalizeTerminal sDone.store "j3" 1 "j3" ≠ some jobDone := by
  refine ⟨rfl, by decide, by decide, by decide⟩

/-- C7, amended: the three finalisation writes are unconditional UPDATEs
by id with no status guard: whatever the row's current status, success
overwrites `status`/`result`, and retry/terminal overwrite
`attempts`/`status`. Only the loop's structure (finalisation happens
right after the claim update of the same iteration) stands between them
and duplicate finalisation. -/
theorem finalize_unconditional (st : String → Option Job) (id : String) (job : Job)
    (r : ResultV) (a : Nat) (h : st id = some job) :
    finalizeSuccess st id r id =
      some { job with status := Status.completed, result := some r } ∧
    finalizeRetry st id a id =
      some { job with attempts := a, status := Status.pending } ∧
    finalizeTerminal st id a id =
      some { job with attempts := a, status := Status.failed } := by
  refine ⟨?_, ?_, ?_⟩ <;>
    simp [finalizeSuccess, finalizeRetry, finalizeTerminal, updStore, h]

/-- Witness for `finalize_unconditional` at the completed job `j3`. -/
theorem finalize_unconditional_witness :
    finalizeSuccess sDone.store "j3" (ResultV.messageId "m0") "j3" =
      some { jobDone with
             status := Status.completed
             result := some (ResultV.messageId "m0") } :=
  (finalize_unconditional sDone.store "j3" jobDone (ResultV.messageId "m0") 9 rfl).1

/-- C8, counterexample: with shutdown already signalled and the work
queue empty, the loop state blocked inside `brpop` is a fixpoint of the
loop semantics that is not the finished state: the flag is not honoured
inside the pop's wait (the call was issued with timeout 0), so shutdown
does not complete while the queue stays empty. -/
theorem shutdown_blocked_in_empty_pop :
    wBlocked.shuttingDown = true ∧
    wBlocked.engine.queue = [] ∧
    loopStep mailerOk wBlocked = wBlocked ∧
    wBlocked.phase ≠ LoopPhase.finished := by
  refine ⟨rfl, rfl, rfl, by decide⟩

/-- C8, amended: the shutdown flag is checked before each pop — at the
loop head a signalled shutdown finishes the loop without requesting
another pop, and an unsignalled one enters the pop — but inside the
pop's wait the flag is ignored: on an empty queue the blocked state is
left exactly as it is, whatever the flag says. -/
theorem shutdown_checked_before_pop (m : Mailer) (w : LoopState) :
    (w.phase = LoopPhase.atHead → w.shuttingDown = true →
      loopStep m w = { w with phase := LoopPhase.finished }) ∧
    (w.phase = LoopPhase.atHead → w.shuttingDown = false →
      loopStep m w = { w with phase := LoopPhase.waiting }) ∧
    (w.phase = LoopPhase.waiting → w.engine.queue = [] → loopStep m w = w) := by
  refine ⟨?_, ?_, ?_⟩ <;> intro hp hf <;> simp [loopStep, hp, hf, brpop]

/-- Witness for `shutdown_checked_before_pop` at the loop head with
shutdown signalled. -/
theorem shutdown_checked_before_pop_witness :
    loopStep mailerOk wAtHead = { wAtHead with phase := LoopPhase.finished } :=
  (shutdown_checked_before_pop mailerOk wAtHead).1 rfl rfl

/-- C10: for a CSV job with a non-empty data array, the stored record
after success is the same whether or not the output file was newly
written — `status = completed` and `result = {filePath: output/<id>.csv}`
— and when the file already exists the worker skips the write, leaving
the file list untouched. -/
theorem csv_existing_file_skipped_same_record (m : Mailer) (s : EngineState)
    (id : String) (job : Job) (rows : List Row)
    (hj : s.store id = some job) (hnc : job.status ≠ Status.completed)
    (hf : job.payload.fail = false)
    (ht : job.type = "CSV_EXPORT" ∨ job.type = "csv-generation")
    (hd : job.payload.data = some rows) (hne : rows ≠ []) :
    (processDelivery m s id).store id =
      some { job with
             status := Status.completed
             result := some (ResultV.filePath ("output/" ++ (id ++ ".csv"))) } ∧
    ((s.files.any fun p => p.1 = "/usr/src/app/output/" ++ (id ++ ".csv")) = true →
      (processDelivery m s id).files = s.files) := by
  rcases rows with _ | ⟨r0, rs⟩
  · exact absurd rfl hne
  · constructor
    · rcases ht with ht | ht <;>
        simp [processDelivery, hj, hnc, execTry, hf, ht, hd, finalizeSuccess,
          claimUpdate, updStore, Option.map_map, Function.comp_def]
    · intro hex
      rcases ht with ht | ht <;>
        simp [processDelivery, hj, hnc, execTry, hf, ht, hd, claimUpdate, hex]

/-- Witness for `csv_existing_file_skipped_same_record` at the job `j7`,
whose output file already exists: no write happens and the record is the
usual success record. -/
theorem csv_existing_file_skipped_same_record_witness :
    (processDelivery mailerOk sCsvFileExists "j7").store "j7" =
      some { jobCsv7 with
             status := Status.completed
             result := some (ResultV.filePath ("output/" ++ ("j7" ++ ".csv"))) } ∧
    (processDelivery mailerOk sCsvFileExists "j7").files = sCsvFileExists.files := by
  have h := csv_existing_file_skipped_same_record mailerOk sCsvFileExists "j7"
    jobCsv7 [[("name", "Alice"), ("score", "95")]] rfl (by decide) rfl (Or.inr rfl)
    rfl (by decide)
  exact ⟨h.1, h.2 (by decide)⟩

/-- C2: a pending job whose payload fails every attempt, delivered from
a queue holding exactly its id, goes through two finished attempts:
after the second loop iteration its record is `failed` with
`attempts = MAX_RETRIES`, the work queue is empty, and its id has been
pushed onto the dead-letter queue exactly once. -/
theorem failing_job_dead_lettered (m : Mailer) (s : EngineState) (id : String)
    (job : Job) (hq : s.queue = [id]) (hj : s.store id = some job)
    (hs : job.status = Status.pending) (hf : job.payload.fail = true)
    (ha : job.attempts = 0) :
    ((stepOnce m s).bind (stepOnce m)).map (fun t => t.store id) =
      some (some { job with status := Status.failed, attempts := MAX_RETRIES }) ∧
    ((stepOnce m s).bind (stepOnce m)).map EngineState.queue = some [] ∧
    ((stepOnce m s).bind (stepOnce m)).map EngineState.dlq = some (id :: s.dlq) ∧
    ((stepOnce m s).bind (stepOnce m)).map (fun t => List.count id t.dlq) =
      some (List.count id s.dlq + 1) := by
  have hnc : job.status ≠ Status.completed := by simp [hs]
  refine ⟨?_, ?_, ?_, ?_⟩ <;>
    simp [stepOnce, brpop, hq, processDelivery, hj, hs, hnc, hf, ha, execTry,
      claimUpdate, finalizeRetry, finalizeTerminal, updStore, MAX_RETRIES]

/-- Witness for `failing_job_dead_lettered` at the concrete queue
holding the failing job `j4`. -/
theorem failing_job_dead_lettered_witness :
    ((stepOnce mailerOk sFailQueue).bind (stepOnce mailerOk)).map
        (fun t => t.store "j4") =
      some (some { jobFail0 with status := Status.failed, attempts := MAX_RETRIES }) :=
  (failing_job_dead_lettered mailerOk sFailQueue "j4" jobFail0 rfl rfl rfl rfl rfl).1

/-- Preservation of the result-iff-completed invariant by one delivery:
every write of `result` comes with `status = completed` and every other
status write leaves a NULL `result` in place. -/
theorem processDelivery_resultInv (m : Mailer) (s : EngineState) (id : String)
    (ih : ∀ k j, s.store k = some j →
      (j.result.isSome = true ↔ j.status = Status.completed)) :
    ∀ k j, (processDelivery m s id).store k = some j →
      (j.result.isSome = true ↔ j.status = Status.completed) := by
  intro k j h
  rcases processDelivery_cases m s id with hc | ⟨job, hj, hnc, hst⟩
  · rw [hc] at h
    exact ih k j h
  · by_cases hk : k = id
    · subst hk
      have hres : job.result.isSome = false := by
        by_cases hb : job.result.isSome = true
        · exact absurd ((ih k job hj).mp hb) hnc
        · simpa using hb
      rcases hst with hshape | ⟨r, hshape⟩ | hshape | hshape <;>
        rw [hshape] at h <;>
        simp [finalizeSuccess, finalizeRetry, finalizeTerminal, claimUpdate,
          updStore, hj, Option.map_map, Function.comp_def] at h <;>
        subst h <;>
        simp [hres]
    · rcases hst with hshape | ⟨r, hshape⟩ | hshape | hshape <;>
        rw [hshape] at h <;>
        simp [finalizeSuccess, finalizeRetry, finalizeTerminal, claimUpdate,
          updStore, hk] at h <;>
        exact ih k j h

/-- C6: in every state reachable through the engine's operations, a
job's `result` is non-null exactly when its status is `completed`. -/
theorem result_iff_completed (s : EngineState) (hr : Reachable s) :
    ∀ k j, s.store k = some j →
      (j.result.isSome = true ↔ j.status = Status.completed) := by
  induction hr with
  | init =>
    intro k j h
    exact Option.noConfusion h
  | create s id ty p hty hs hfresh ih =>
    intro k j h
    by_cases hk : k = id
    · subst hk
      simp at h
      subst h
      simp [mkPendingJob]
    · simp [hk] at h
      exact ih k j h
  | deliver s m id hs ih =>
    exact processDelivery_resultInv m s id ih

/-- Witness for `result_iff_completed` at the state reached by creating
one CSV job in the empty store. -/
theorem result_iff_completed_witness :
    (mkPendingJob "csv-generation" csvPayload).result.isSome = true ↔
      (mkPendingJob "csv-generation" csvPayload).status = Status.completed := by
  have h := result_iff_completed _
    (Reachable.create { store := fun _ => none, queue := [], dlq := [], files := [] }
      "c1" "csv-generation" csvPayload (by decide) Reachable.init rfl)
  exact h "c1" (mkPendingJob "csv-generation" csvPayload) (by simp)

end AsyncJobs
